import Mathlib

/-!
Verification of the pyhatchbabyrest async client
(`src/pyhatchbabyrest/pyhatchbabyrestasync.py`).

The development shallowly embeds the connection-guard state machine
(`SaveConnectBleakClient`), the status decode (`refresh_data`), the command
encoders (`power_on` .. `set_time`), the command dispatch (`_send_command`)
and the discovery logic (`scan`).  Python bytes are `Nat` values (with `< 256`
hypotheses where width matters), buffers are `List Nat`, command strings are
Lean `String`s, and the asynchronous effects are made explicit: reads appear
as buffer arguments, writes and sleeps as an event trace, and the mutable
session attributes as explicit state records.
-/

namespace HatchRest

/-! ## Hexadecimal formatting

Python `"..{:02x}..".format(n)` renders `n` in lowercase hexadecimal,
zero-padded on the left to a minimum width of two characters (wider if the
value needs more digits).  `Nat.toDigits 16` produces exactly Python's
lowercase hex digits. -/

/-- Python `hex`-pair field: lowercase hexadecimal, zero-padded to width 2. -/
def fmt02x (n : Nat) : String :=
  let ds := Nat.toDigits 16 n
  String.mk (List.replicate (2 - ds.length) '0' ++ ds)

/-! ## Wall-clock values

`datetime` values that the session stores or formats.  The session never
compares an epoch-based value with a civil one, so the two Python expressions
`datetime.fromtimestamp(ts, UTC)` and a caller-supplied naive `datetime` are
kept as separate constructors. -/

/-- A civil (calendar) date-time, the fields `strftime` reads. -/
structure CivilTime where
  year : Nat
  month : Nat
  day : Nat
  hour : Nat
  minute : Nat
  second : Nat
deriving DecidableEq

/-- A Python `datetime` value as this module produces them: either
`datetime.fromtimestamp(seconds, UTC)` or a civil date-time. -/
inductive PyDateTime where
  | fromEpochUTC (seconds : Nat)
  | civil (t : CivilTime)
deriving DecidableEq

/-- Zero-pad a decimal rendering to width 2 (`strftime` two-digit fields). -/
def pad2 (n : Nat) : String :=
  let ds := Nat.toDigits 10 n
  String.mk (List.replicate (2 - ds.length) '0' ++ ds)

/-- Zero-pad a decimal rendering to width 4 (`strftime` `%Y`). -/
def pad4 (n : Nat) : String :=
  let ds := Nat.toDigits 10 n
  String.mk (List.replicate (4 - ds.length) '0' ++ ds)

/-- `t.strftime("%Y%m%d%H%M%S")`. -/
def fmtYmdHms (t : CivilTime) : String :=
  pad4 t.year ++ pad2 t.month ++ pad2 t.day ++
    pad2 t.hour ++ pad2 t.minute ++ pad2 t.second

/-! ## Status decode (`refresh_data`, lines 116-144)

`refresh_data` reads the feedback characteristic into `raw_char_read`, builds
`response = [hex(x) for x in raw_char_read]`, and then reads fixed offsets
back with `int(x, 16)` — the hex round-trip is the identity on byte values,
so the embedding reads the offsets directly.  The three `assert` statements
are the protocol-format guards; constructing `PyHatchBabyRestSound` raises on
an unknown value.  Every fallible step precedes the first assignment to a
`self.` status attribute, so the decode either fails with the snapshot intact
or replaces the whole snapshot. -/

/-- `int.from_bytes(bs)` with the default big-endian byte order. -/
def intFromBytesBE (bs : List Nat) : Nat :=
  bs.foldl (fun a b => a * 256 + b) 0

/-- Decode failures of `refresh_data`: a section-marker `assert` mismatch
(offset, expected, actual), or `PyHatchBabyRestSound(value)` raising on a
value outside the enumerated sound modes. -/
inductive DecodeError where
  | protocolFormatError (offset expected actual : Nat)
  | unknownSoundMode (value : Nat)
deriving DecidableEq

/-- The status snapshot held by the session: the `self.time`, `self.color`,
`self.brightness`, `self.sound`, `self.volume`, `self.power` attributes. -/
structure DeviceStatus where
  time : PyDateTime
  color : Nat × Nat × Nat
  brightness : Nat
  sound : Nat
  volume : Nat
  power : Bool
deriving DecidableEq

/-- The pure part of `refresh_data` applied to the bytes read from the
feedback characteristic.  `soundKnown` is the membership test of the
`PyHatchBabyRestSound` enumeration (its concrete values live in the
`constants` module, outside the embedded source; the decode is parametric in
it).  Checks run in source order: markers at offsets 5, 10 and 13, then the
sound value; the field reads mirror the source offsets exactly. -/
def refreshDecode (soundKnown : Nat → Bool) (buf : List Nat) :
    Except DecodeError DeviceStatus :=
  let timestamp := intFromBytesBE ((buf.drop 1).take 4)
  if buf.getD 5 0 = 0x43 then
    if buf.getD 10 0 = 0x53 then
      if buf.getD 13 0 = 0x50 then
        let red := buf.getD 6 0
        let green := buf.getD 7 0
        let blue := buf.getD 8 0
        let brightness := buf.getD 9 0
        if soundKnown (buf.getD 11 0) then
          let volume := buf.getD 12 0
          let power := !(0b11000000 &&& buf.getD 14 0 != 0)
          .ok { time := .fromEpochUTC timestamp
                color := (red, green, blue)
                brightness := brightness
                sound := buf.getD 11 0
                volume := volume
                power := power }
        else
          .error (.unknownSoundMode (buf.getD 11 0))
      else
        .error (.protocolFormatError 13 0x50 (buf.getD 13 0))
    else
      .error (.protocolFormatError 10 0x53 (buf.getD 10 0))
  else
    .error (.protocolFormatError 5 0x43 (buf.getD 5 0))

/-- `refresh_data` as a transformer of the cached snapshot: on success the
snapshot is replaced wholesale by the decoded one; on failure the exception
propagates and the snapshot is untouched (all `self.` assignments in the
source come after every fallible step). -/
def refreshData (soundKnown : Nat → Bool) (buf : List Nat)
    (st : DeviceStatus) : DeviceStatus × Option DecodeError :=
  match refreshDecode soundKnown buf with
  | .ok st2 => (st2, none)
  | .error e => (st, some e)

/-! ## Scoped connection guard (`SaveConnectBleakClient`, lines 16-28)

The guard is a `BleakClient` subclass used via `async with`: `__aenter__`
records `was_open = True` when the client is already connected, otherwise
connects; `__aexit__` disconnects only when `was_open` is false (and its
`was_open = False` assignment sits inside that same branch, where the flag is
already false).  Python guarantees `__aexit__` runs on every exit path of the
`async with` block, including exceptions, so the exit transition below covers
the failure path too. -/

/-- The observable state of a `SaveConnectBleakClient`: the transport
connection status and the instance's `was_open` attribute (class default
`False`). -/
structure GuardClient where
  connected : Bool
  wasOpen : Bool
deriving DecidableEq

/-- A freshly constructed client: not connected, `was_open` at its class
default `False`. -/
def GuardClient.fresh : GuardClient := { connected := false, wasOpen := false }

/-- `SaveConnectBleakClient.__aenter__`. -/
def aenter (c : GuardClient) : GuardClient :=
  if c.connected then { c with wasOpen := true }
  else { c with connected := true }

/-- `SaveConnectBleakClient.__aexit__` (runs on every exit path). -/
def aexit (c : GuardClient) : GuardClient :=
  if !c.wasOpen then { c with connected := false, wasOpen := false }
  else c

/-! ## Command encoders (lines 156-201)

Each mutator builds a short ASCII command with `"XX" + "..{:02x}..".format`
fields; `set_time` formats the wall clock with `strftime`. -/

/-- `power_on` / `power_off` command: `"SI" + format(1 or 0, 02x)`. -/
def powerCommand (isOn : Bool) : String :=
  "SI" ++ fmt02x (if isOn then 1 else 0)

/-- `set_sound` command: `"SN" + format(sound, 02x)`. -/
def setSoundCommand (sound : Nat) : String := "SN" ++ fmt02x sound

/-- `set_volume` command: `"SV" + format(volume, 02x)`. -/
def setVolumeCommand (volume : Nat) : String := "SV" ++ fmt02x volume

/-- The four-field color command `"SC" + r + g + b + brightness`, each field
`format(value, 02x)`, shared by `set_color` and `set_brightness`. -/
def setColorCommand (r g b brightness : Nat) : String :=
  "SC" ++ fmt02x r ++ fmt02x g ++ fmt02x b ++ fmt02x brightness

/-! ## Command dispatch (`_send_command`, lines 77-93)

`_send_command` writes the command to the TX characteristic with
`response=True`; when `self.auto_refresh` is set it then sleeps 0.25 s
(250 ms) and calls `refresh_data`, whose read buffer is the `readBuf`
argument here.  The transport interactions are recorded as an event trace. -/

/-- A transport interaction performed by the session. -/
inductive Event where
  | writeTx (data : String)
  | sleepMs (ms : Nat)
  | readFeedback
deriving DecidableEq

/-- `_send_command command`: the event trace it performs, the snapshot after
it, and the decode error when auto-refresh hits a bad buffer.  `readBuf` is
the buffer the auto-refresh read returns (unused when `autoRefresh` is
false, where no read happens at all). -/
def sendCommand (autoRefresh : Bool) (soundKnown : Nat → Bool)
    (readBuf : List Nat) (command : String) (st : DeviceStatus) :
    List Event × DeviceStatus × Option DecodeError :=
  if autoRefresh then
    let r := refreshData soundKnown readBuf st
    ([.writeTx command, .sleepMs 250, .readFeedback], r.1, r.2)
  else
    ([.writeTx command], st, none)

/-! ## `set_color` / `set_brightness` (lines 176-192)

Both call `refresh_data` first, then format the `SC` command from the
caller's new values combined with the just-refreshed other field, then
optimistically mutate the snapshot, then `_send_command`.  The embedding
stops at the composed command and mutated snapshot (the dispatch that
follows is `sendCommand` above); if the pre-refresh fails, the exception
aborts the call before any command is formed. -/

/-- `set_color(red, green, blue)` up to the `_send_command` call: refresh
from `buf1`, then the command uses the refreshed `self.brightness`.
Returns the command string and the snapshot after the optimistic
`self.color` assignment. -/
def setColor (soundKnown : Nat → Bool) (buf1 : List Nat)
    (red green blue : Nat) (_st : DeviceStatus) :
    Except DecodeError (String × DeviceStatus) :=
  match refreshDecode soundKnown buf1 with
  | .error e => .error e
  | .ok st1 =>
    let command := setColorCommand red green blue st1.brightness
    .ok (command, { st1 with color := (red, green, blue) })

/-- `set_brightness(brightness)` up to the `_send_command` call: refresh from
`buf1`, then the command uses the refreshed `self.color` components with the
new brightness. -/
def setBrightness (soundKnown : Nat → Bool) (buf1 : List Nat)
    (brightness : Nat) (_st : DeviceStatus) :
    Except DecodeError (String × DeviceStatus) :=
  match refreshDecode soundKnown buf1 with
  | .error e => .error e
  | .ok st1 =>
    let command :=
      setColorCommand st1.color.1 st1.color.2.1 st1.color.2.2 brightness
    .ok (command, { st1 with brightness := brightness })

/-! ## `set_time` (lines 194-201)

`set_time(new_time)` substitutes `datetime.now()` when `new_time` is falsy
(`None`; a `datetime` object is always truthy), stores `new_time` in
`self.time`, but formats the command from a second, fresh `datetime.now()`
call — the argument never reaches the wire.  `now1` is the first clock read
(consumed only in the `None` branch), `now2` the one inside the command
expression. -/

/-- `set_time(newTime)` up to the `_send_command` call: returns the mutated
snapshot and the command string `"ST" + now.strftime(%Y%m%d%H%M%S) + "U"`. -/
def setTime (now1 now2 : CivilTime) (newTime : Option CivilTime)
    (st : DeviceStatus) : DeviceStatus × String :=
  let nt := match newTime with
    | none => now1
    | some t => t
  ({ st with time := .civil nt }, "ST" ++ fmtYmdHms now2 ++ "U")

/-! ## Discovery (`scan`, lines 95-114)

`scan` uses `find_device_by_address` when `self.address` is truthy (a
non-empty string), else `find_device_by_filter` with the predicate
`BT_MANUFACTURER_ID in device.metadata["manufacturer_data"].keys()`.  A
`None` result raises before the `self.device` / `self.address` assignments,
so the cached identity is overwritten only on success. -/

/-- A scanned BLE device: its address and the keys of its advertisement's
`metadata["manufacturer_data"]` dictionary. -/
structure BLEDeviceM where
  address : String
  mfgKeys : List Nat
deriving DecidableEq

/-- The cached device identity of a session: `self.device` and
`self.address`. -/
structure IdentityState where
  device : Option BLEDeviceM
  address : Option String
deriving DecidableEq

/-- The `RuntimeError` raised when the scan finds nothing. -/
inductive ScanError where
  | deviceNotFound
deriving DecidableEq

/-- The filter lambda passed to `find_device_by_filter`. -/
def scanFilterPred (mfgId : Nat) (d : BLEDeviceM) : Bool :=
  d.mfgKeys.contains mfgId

/-- Modelled from the spec: the transport's `scan_by_filter` capability
(`BleakScanner.find_device_by_filter`, outside the embedded source) returns
a device whose advertisement satisfies the predicate, or `NotFound` when no
advertisement matches; here it is the first match in the advertisement
list. -/
def findDeviceByFilter (pred : BLEDeviceM → Bool)
    (advertised : List BLEDeviceM) : Option BLEDeviceM :=
  advertised.find? pred

/-- The `device = ...` step of `scan`: `find_device_by_address` when
`self.address` is truthy (Python treats both `None` and the empty string as
falsy), else `find_device_by_filter` with the manufacturer-data predicate.
`findByAddress` is the transport's `scan_by_address` capability, `advertised`
the advertisements `scan_by_filter` can see. -/
def scanDevice (mfgId : Nat) (findByAddress : String → Option BLEDeviceM)
    (advertised : List BLEDeviceM) (st : IdentityState) : Option BLEDeviceM :=
  match st.address with
  | some a =>
    if a.isEmpty then findDeviceByFilter (scanFilterPred mfgId) advertised
    else findByAddress a
  | none => findDeviceByFilter (scanFilterPred mfgId) advertised

/-- `scan`: raises when nothing was found (cached identity untouched),
otherwise stores the found device and its address and returns it. -/
def scan (mfgId : Nat) (findByAddress : String → Option BLEDeviceM)
    (advertised : List BLEDeviceM) (st : IdentityState) :
    IdentityState × Except ScanError BLEDeviceM :=
  match scanDevice mfgId findByAddress advertised st with
  | none => (st, .error .deviceNotFound)
  | some d => ({ device := some d, address := some d.address }, .ok d)

/-! ## Explicit `connect` / `disconnect` methods (lines 146-154)

The session's caller-facing `connect` and `disconnect` act on the cached
client directly (outside any guard): `connect` connects only when the client
is not connected, `disconnect` disconnects only when it is.  Neither touches
the client's `was_open` attribute. -/

/-- The session's `connect` method applied to the cached client. -/
def sessionConnect (c : GuardClient) : GuardClient :=
  if !c.connected then { c with connected := true } else c

/-- The session's `disconnect` method applied to the cached client. -/
def sessionDisconnect (c : GuardClient) : GuardClient :=
  if c.connected then { c with connected := false } else c

/-! ## Shared lemmas and concrete evaluation inputs -/

/-- Modelled from the spec: a representative membership test for the
sound-mode enumeration (the concrete `PyHatchBabyRestSound` values live in
the `constants` module, outside the embedded source); used only to
instantiate concrete evaluations. -/
def soundKnownDemo : Nat → Bool := fun n => n == 5

/-- A snapshot to instantiate concrete evaluations with. -/
def st0 : DeviceStatus :=
  { time := .fromEpochUTC 0, color := (0, 0, 0), brightness := 0
    sound := 0, volume := 0, power := false }

/-- A well-formed 15-byte status buffer: timestamp 1, color `(10, 20, 30)`,
brightness 99, sound 5, volume 42, flag byte 0. -/
def bufOk : List Nat :=
  [0, 0, 0, 0, 1, 0x43, 10, 20, 30, 99, 0x53, 5, 42, 0x50, 0]

/-- The decode of `bufOk`. -/
def statOk : DeviceStatus :=
  { time := .fromEpochUTC 1, color := (10, 20, 30), brightness := 99
    sound := 5, volume := 42, power := true }

/-- Every successful decode returns exactly the record read off the fixed
buffer offsets. -/
theorem refreshDecode_ok_eq (k : Nat → Bool) (buf : List Nat) (s : DeviceStatus)
    (h : refreshDecode k buf = .ok s) :
    s = { time := .fromEpochUTC (intFromBytesBE ((buf.drop 1).take 4))
          color := (buf.getD 6 0, buf.getD 7 0, buf.getD 8 0)
          brightness := buf.getD 9 0
          sound := buf.getD 11 0
          volume := buf.getD 12 0
          power := !(0b11000000 &&& buf.getD 14 0 != 0) } := by
  simp only [refreshDecode] at h
  split_ifs at h with h5 h10 h13 hs
  exact (Except.ok.inj h).symm

/-- On a buffer of length at least 5, the slice `raw[1:5]` is the four bytes
at offsets 1 to 4. -/
theorem drop_one_take_four (buf : List Nat) (h : 5 ≤ buf.length) :
    (buf.drop 1).take 4 = [buf.getD 1 0, buf.getD 2 0, buf.getD 3 0, buf.getD 4 0] := by
  rcases buf with _ | ⟨a, _ | ⟨b, _ | ⟨c, _ | ⟨d, _ | ⟨e, rest⟩⟩⟩⟩⟩ <;>
    simp_all [List.getD]

/-- Reading any offset of an all-byte buffer (with default 0) stays below
256. -/
theorem getD_lt_256 (buf : List Nat) (hb : ∀ b ∈ buf, b < 256) (i : Nat) :
    buf.getD i 0 < 256 := by
  rcases hi : buf[i]? with _ | b
  · simp [List.getD, hi]
  · have hmem : b ∈ buf := by
      have := List.getElem?_eq_some.mp hi
      obtain ⟨hlt, he⟩ := this
      exact he ▸ List.getElem_mem hlt
    simpa [List.getD, hi] using hb b hmem

set_option maxRecDepth 4096 in
/-- A value below 256 renders as exactly two hex characters. -/
theorem fmt02x_length_two (n : Nat) (h : n < 256) : (fmt02x n).length = 2 := by
  revert h
  revert n
  decide

/-! ## Claim C1 — the power-flag decode -/

/-- A well-formed buffer whose flag byte has only the topmost bit pattern
`01000000`. -/
def bufPow64 : List Nat :=
  [0, 0, 0, 0, 1, 0x43, 10, 20, 30, 99, 0x53, 5, 42, 0x50, 0b01000000]

/-- Claim C1 counterexample: a buffer whose byte 14 is `0b01000000` — the two
most-significant bits are not both set, so the claim predicts power `True` —
decodes to power `False`: the source computes
`not bool(0b11000000 & byte14)`, which is `False` whenever either high bit is
set. -/
theorem power_mask_counterexample :
    bufPow64.getD 14 0 = 0b01000000 ∧
    (0b11000000 &&& bufPow64.getD 14 0) ≠ 0b11000000 ∧
    (refreshDecode soundKnownDemo bufPow64).toOption.map DeviceStatus.power
      = some false :=
  ⟨rfl, by decide, rfl⟩

/-- Claim C1 (amended): the decoded power field is `False` exactly when at
least one of the two most-significant bits of byte 14 is set
(`byte14 & 0b11000000 ≠ 0`); byte 14 `0b00000000` yields power `True`, while
`0b01000000`, `0b10000000` and `0b11000000` each yield power `False`. -/
theorem power_mask_amended (k : Nat → Bool) (buf : List Nat) (s : DeviceStatus)
    (h : refreshDecode k buf = .ok s) :
    (s.power = false ↔ 0b11000000 &&& buf.getD 14 0 ≠ 0) ∧
    (buf.getD 14 0 = 0b00000000 → s.power = true) ∧
    (buf.getD 14 0 = 0b01000000 → s.power = false) ∧
    (buf.getD 14 0 = 0b10000000 → s.power = false) ∧
    (buf.getD 14 0 = 0b11000000 → s.power = false) := by
  have hp : s.power = !(0b11000000 &&& buf.getD 14 0 != 0) := by
    rw [refreshDecode_ok_eq k buf s h]
  refine ⟨?_, ?_, ?_, ?_, ?_⟩
  · rw [hp]
    simp [bne]
  all_goals intro h14; rw [hp, h14]; decide

/-- Concrete instance of `power_mask_amended`: `bufOk` has flag byte 0 and
decodes to power `True`. -/
theorem power_mask_amended_witness :
    refreshDecode soundKnownDemo bufOk = .ok statOk ∧ statOk.power = true :=
  ⟨rfl, (power_mask_amended soundKnownDemo bufOk statOk rfl).2.1 rfl⟩

/-! ## Claim C3 — atomic decode-or-fail -/

/-- Claim C3: corrupting any single section marker of an otherwise valid
buffer makes `refresh_data` fail with the format error for that offset, and
an unknown sound value at byte 11 (markers intact) fails with the
unknown-sound error; in every failure case the snapshot is returned exactly
as it was. -/
theorem decode_atomic_fail (k : Nat → Bool) (buf : List Nat) (st : DeviceStatus) :
    (buf.getD 5 0 ≠ 0x43 →
      refreshData k buf st = (st, some (.protocolFormatError 5 0x43 (buf.getD 5 0)))) ∧
    (buf.getD 5 0 = 0x43 → buf.getD 10 0 ≠ 0x53 →
      refreshData k buf st = (st, some (.protocolFormatError 10 0x53 (buf.getD 10 0)))) ∧
    (buf.getD 5 0 = 0x43 → buf.getD 10 0 = 0x53 → buf.getD 13 0 ≠ 0x50 →
      refreshData k buf st = (st, some (.protocolFormatError 13 0x50 (buf.getD 13 0)))) ∧
    (buf.getD 5 0 = 0x43 → buf.getD 10 0 = 0x53 → buf.getD 13 0 = 0x50 →
      k (buf.getD 11 0) = false →
      refreshData k buf st = (st, some (.unknownSoundMode (buf.getD 11 0)))) := by
  refine ⟨fun h5 => ?_, fun h5 h10 => ?_, fun h5 h10 h13 => ?_,
    fun h5 h10 h13 hk => ?_⟩ <;> simp only [refreshData, refreshDecode]
  · rw [if_neg h5]
  · rw [if_pos h5, if_neg h10]
  · rw [if_pos h5, if_pos h10, if_neg h13]
  · rw [if_pos h5, if_pos h10, if_pos h13, hk]
    simp

/-- `bufOk` with its color marker corrupted to `0x44`. -/
def bufBad5 : List Nat :=
  [0, 0, 0, 0, 1, 0x44, 10, 20, 30, 99, 0x53, 5, 42, 0x50, 0]

/-- `bufOk` with its audio marker corrupted to `0x00`. -/
def bufBad10 : List Nat :=
  [0, 0, 0, 0, 1, 0x43, 10, 20, 30, 99, 0x00, 5, 42, 0x50, 0]

/-- `bufOk` with its power marker corrupted to `0xff`. -/
def bufBad13 : List Nat :=
  [0, 0, 0, 0, 1, 0x43, 10, 20, 30, 99, 0x53, 5, 42, 0xff, 0]

/-- `bufOk` with an out-of-enumeration sound value 7 at byte 11. -/
def bufBadSound : List Nat :=
  [0, 0, 0, 0, 1, 0x43, 10, 20, 30, 99, 0x53, 7, 42, 0x50, 0]

/-- Concrete instances of `decode_atomic_fail`: each corrupted buffer fails
with its own error and leaves the snapshot `st0` untouched. -/
theorem decode_atomic_fail_witness :
    refreshData soundKnownDemo bufBad5 st0
      = (st0, some (.protocolFormatError 5 0x43 0x44)) ∧
    refreshData soundKnownDemo bufBad10 st0
      = (st0, some (.protocolFormatError 10 0x53 0x00)) ∧
    refreshData soundKnownDemo bufBad13 st0
      = (st0, some (.protocolFormatError 13 0x50 0xff)) ∧
    refreshData soundKnownDemo bufBadSound st0
      = (st0, some (.unknownSoundMode 7)) :=
  ⟨(decode_atomic_fail soundKnownDemo bufBad5 st0).1 (by decide),
   (decode_atomic_fail soundKnownDemo bufBad10 st0).2.1 (by decide) (by decide),
   (decode_atomic_fail soundKnownDemo bufBad13 st0).2.2.1 (by decide) (by decide)
     (by decide),
   (decode_atomic_fail soundKnownDemo bufBadSound st0).2.2.2 (by decide)
     (by decide) (by decide) (by decide)⟩

/-! ## Claims C2 and C9 — the connection guard -/

/-- Claim C2 at its failing inputs.  First scenario, reachable through the
public API as `connect(); refresh_data(); disconnect(); refresh_data()`: the
final guarded operation starts on a disconnected client, yet the client is
still connected after the guard exits, because `was_open` is never reset
once set.  Second scenario, a single `_send_command` with auto-refresh on a
fresh client: the outer guard connects (`was_open` still false), the nested
`refresh_data` guard finds the connection open and sets `was_open`, so both
exits skip the disconnect and the client stays connected although it was
disconnected when the outer guard was entered.  Both contradict the claim's
leave-as-found requirement on every exit path. -/
theorem guard_not_leave_as_found :
    (let c1 := sessionConnect GuardClient.fresh
     let c2 := aexit (aenter c1)
     let c3 := sessionDisconnect c2
     c3.connected = false ∧ (aexit (aenter c3)).connected = true) ∧
    (GuardClient.fresh.connected = false ∧
     (aexit (aexit (aenter (aenter GuardClient.fresh)))).connected = true) := by
  decide

/-- Claim C9: once a client's `was_open` flag is true, every exit path that
skips the disconnect leaves the flag true (`aexit` is the identity there),
and every subsequent guarded use — any number of enter/exit rounds, even
ones where the guard itself issues the connect — leaves the client both
connected and flagged on exit. -/
theorem guard_was_open_sticky (c : GuardClient) (h : c.wasOpen = true) :
    aexit c = c ∧
    (aexit (aenter c)).wasOpen = true ∧
    (aexit (aenter c)).connected = true ∧
    ∀ n : Nat, ((fun st => aexit (aenter st))^[n + 1] c).wasOpen = true ∧
      ((fun st => aexit (aenter st))^[n + 1] c).connected = true := by
  have step : ∀ d : GuardClient, d.wasOpen = true →
      aexit (aenter d) = { connected := true, wasOpen := true } := by
    intro d hd
    obtain ⟨dc, dw⟩ := d
    cases dw
    · simp at hd
    · cases dc <;> decide
  have hiter : ∀ n : Nat, (fun st => aexit (aenter st))^[n + 1] c
      = { connected := true, wasOpen := true } := by
    intro n
    induction n with
    | zero => simpa using step c h
    | succ m ih =>
      rw [Function.iterate_succ_apply', ih]
      exact step _ rfl
  refine ⟨by simp [aexit, h], ?_, ?_, fun n => ?_⟩
  · rw [step c h]
  · rw [step c h]
  · rw [hiter n]
    exact ⟨rfl, rfl⟩

/-- Concrete instance of `guard_was_open_sticky`: a disconnected client with
the flag set skips the disconnect on exit and comes out of the next guarded
use connected. -/
theorem guard_was_open_sticky_witness :
    aexit { connected := false, wasOpen := true }
      = { connected := false, wasOpen := true } ∧
    (aexit (aenter { connected := false, wasOpen := true })).connected = true :=
  ⟨(guard_was_open_sticky { connected := false, wasOpen := true } rfl).1,
   (guard_was_open_sticky { connected := false, wasOpen := true } rfl).2.2.1⟩

/-! ## Claim C4 — refresh before compose -/

/-- Claim C4: `set_color(10, 20, 30)` refreshes first and composes
`SC0a141e` followed by the brightness byte that the refresh just decoded
(offset 9 of the freshly read buffer) — for every prior snapshot `st`, so no
stale cached brightness can enter the command; symmetrically,
`set_brightness` composes the just-refreshed red, green and blue with the
new brightness.  (The spec treats the hex fields as case-independent; the
source formats them in lowercase.) -/
theorem set_color_refresh_before_compose (k : Nat → Bool) (buf : List Nat)
    (st st1 : DeviceStatus) (h : refreshDecode k buf = .ok st1) :
    setColor k buf 10 20 30 st
      = .ok ("SC0a141e" ++ fmt02x (buf.getD 9 0), { st1 with color := (10, 20, 30) }) ∧
    st1.brightness = buf.getD 9 0 ∧
    st1.color = (buf.getD 6 0, buf.getD 7 0, buf.getD 8 0) ∧
    ∀ b2 : Nat, setBrightness k buf b2 st
      = .ok ("SC" ++ fmt02x (buf.getD 6 0) ++ fmt02x (buf.getD 7 0)
               ++ fmt02x (buf.getD 8 0) ++ fmt02x b2,
             { st1 with brightness := b2 }) := by
  have hrec := refreshDecode_ok_eq k buf st1 h
  have hb : st1.brightness = buf.getD 9 0 := by rw [hrec]
  have hc : st1.color = (buf.getD 6 0, buf.getD 7 0, buf.getD 8 0) := by rw [hrec]
  have hpre : ("SC" ++ fmt02x 10 ++ fmt02x 20 ++ fmt02x 30 : String)
      = "SC0a141e" := rfl
  refine ⟨?_, hb, hc, fun b2 => ?_⟩
  · simp only [setColor, h, setColorCommand]
    rw [hb, hpre]
  · simp only [setBrightness, h, setColorCommand]
    rw [hc]

/-- Concrete instance of `set_color_refresh_before_compose` on `bufOk`
(brightness byte 99 = `0x63`), from the unrelated prior snapshot `st0`. -/
theorem set_color_refresh_before_compose_witness :
    setColor soundKnownDemo bufOk 10 20 30 st0
      = .ok ("SC0a141e" ++ fmt02x (bufOk.getD 9 0),
             { statOk with color := (10, 20, 30) }) ∧
    statOk.brightness = bufOk.getD 9 0 :=
  ⟨(set_color_refresh_before_compose soundKnownDemo bufOk st0 statOk rfl).1,
   (set_color_refresh_before_compose soundKnownDemo bufOk st0 statOk rfl).2.1⟩

/-! ## Claim C5 — the auto-refresh policy of `_send_command` -/

/-- Claim C5: with auto-refresh enabled, `_send_command` performs exactly the
trace write, 250 ms settle sleep, one status read — one additional read after
the write — and the decoded buffer replaces the snapshot wholesale,
whatever optimistic value `st` held; with auto-refresh disabled the trace is
the write alone and no read occurs. -/
theorem send_command_policy (k : Nat → Bool) (buf : List Nat) (cmd : String)
    (st : DeviceStatus) :
    (sendCommand true k buf cmd st).1
      = [.writeTx cmd, .sleepMs 250, .readFeedback] ∧
    (∀ s2, refreshDecode k buf = .ok s2 →
      sendCommand true k buf cmd st
        = ([.writeTx cmd, .sleepMs 250, .readFeedback], s2, none)) ∧
    sendCommand false k buf cmd st = ([.writeTx cmd], st, none) := by
  refine ⟨rfl, fun s2 h2 => ?_, rfl⟩
  simp [sendCommand, refreshData, h2]

/-- Concrete instance of `send_command_policy`: a send over `bufOk` replaces
the snapshot `st0` by `statOk`. -/
theorem send_command_policy_witness :
    sendCommand true soundKnownDemo bufOk "SV2a" st0
      = ([.writeTx "SV2a", .sleepMs 250, .readFeedback], statOk, none) :=
  (send_command_policy soundKnownDemo bufOk "SV2a" st0).2.1 statOk rfl

/-! ## Claim C6 — the status-buffer layout -/

/-- Claim C6: a successful decode reads the timestamp as the big-endian
32-bit unsigned integer over bytes 1-4 (epoch seconds), red, green and blue
from bytes 6, 7 and 8, brightness from byte 9, the sound identifier from
byte 11 and the volume from byte 12. -/
theorem status_decode_layout (k : Nat → Bool) (buf : List Nat)
    (s : DeviceStatus) (hlen : 15 ≤ buf.length) (hb : ∀ b ∈ buf, b < 256)
    (h : refreshDecode k buf = .ok s) :
    s.time = .fromEpochUTC
      (buf.getD 1 0 * 16777216 + buf.getD 2 0 * 65536
        + buf.getD 3 0 * 256 + buf.getD 4 0) ∧
    buf.getD 1 0 * 16777216 + buf.getD 2 0 * 65536
        + buf.getD 3 0 * 256 + buf.getD 4 0 < 4294967296 ∧
    s.color = (buf.getD 6 0, buf.getD 7 0, buf.getD 8 0) ∧
    s.brightness = buf.getD 9 0 ∧
    s.sound = buf.getD 11 0 ∧
    s.volume = buf.getD 12 0 := by
  have hs := refreshDecode_ok_eq k buf s h
  subst hs
  have h5 : 5 ≤ buf.length := le_trans (by norm_num) hlen
  have hts : intFromBytesBE ((buf.drop 1).take 4)
      = buf.getD 1 0 * 16777216 + buf.getD 2 0 * 65536
        + buf.getD 3 0 * 256 + buf.getD 4 0 := by
    rw [drop_one_take_four buf h5]
    simp [intFromBytesBE]
    ring
  have h1 := getD_lt_256 buf hb 1
  have h2 := getD_lt_256 buf hb 2
  have h3 := getD_lt_256 buf hb 3
  have h4 := getD_lt_256 buf hb 4
  exact ⟨congrArg PyDateTime.fromEpochUTC hts, by omega, rfl, rfl, rfl, rfl⟩

/-- Concrete instance of `status_decode_layout` on `bufOk`. -/
theorem status_decode_layout_witness :
    statOk.time = .fromEpochUTC
      (bufOk.getD 1 0 * 16777216 + bufOk.getD 2 0 * 65536
        + bufOk.getD 3 0 * 256 + bufOk.getD 4 0) ∧
    bufOk.getD 1 0 * 16777216 + bufOk.getD 2 0 * 65536
        + bufOk.getD 3 0 * 256 + bufOk.getD 4 0 < 4294967296 ∧
    statOk.color = (bufOk.getD 6 0, bufOk.getD 7 0, bufOk.getD 8 0) ∧
    statOk.brightness = bufOk.getD 9 0 ∧
    statOk.sound = bufOk.getD 11 0 ∧
    statOk.volume = bufOk.getD 12 0 :=
  status_decode_layout soundKnownDemo bufOk statOk (by decide) (by decide) rfl

/-! ## Claim C7 — field round-trips through the command codecs -/

/-- Claim C7: re-encoding the decoded sound through the `set_sound` codec
yields `SN` followed by the two-hex-digit rendering of byte 11, and
re-encoding the decoded volume through the `set_volume` codec yields `SV`
followed by the two-hex-digit rendering of byte 12 — each command carries
exactly the byte value that was decoded. -/
theorem field_round_trip (k : Nat → Bool) (buf : List Nat) (s : DeviceStatus)
    (hb : ∀ b ∈ buf, b < 256) (h : refreshDecode k buf = .ok s) :
    setSoundCommand s.sound = "SN" ++ fmt02x (buf.getD 11 0) ∧
    (fmt02x (buf.getD 11 0)).length = 2 ∧
    setVolumeCommand s.volume = "SV" ++ fmt02x (buf.getD 12 0) ∧
    (fmt02x (buf.getD 12 0)).length = 2 := by
  have hs := refreshDecode_ok_eq k buf s h
  subst hs
  exact ⟨rfl, fmt02x_length_two _ (getD_lt_256 buf hb 11), rfl,
    fmt02x_length_two _ (getD_lt_256 buf hb 12)⟩

/-- Concrete instance of `field_round_trip` on `bufOk` (sound 5, volume
42). -/
theorem field_round_trip_witness :
    setSoundCommand statOk.sound = "SN" ++ fmt02x (bufOk.getD 11 0) ∧
    (fmt02x (bufOk.getD 11 0)).length = 2 ∧
    setVolumeCommand statOk.volume = "SV" ++ fmt02x (bufOk.getD 12 0) ∧
    (fmt02x (bufOk.getD 12 0)).length = 2 :=
  field_round_trip soundKnownDemo bufOk statOk (by decide) rfl

/-! ## Claim C8 — scan failure -/

/-- Claim C8: scan-by-filter fails with the not-found error when no
advertisement's manufacturer data holds the configured identifier, and
scan-by-address fails when the address is not found; in both cases the
cached identity is returned untouched, and whenever a scan succeeds the
stored identity becomes the found device and its address. -/
theorem scan_failure_preserves_identity (mfgId : Nat)
    (findByAddress : String → Option BLEDeviceM)
    (advertised : List BLEDeviceM) (st : IdentityState) :
    (st.address = none → (∀ d ∈ advertised, mfgId ∉ d.mfgKeys) →
      scan mfgId findByAddress advertised st = (st, .error .deviceNotFound)) ∧
    (∀ a, st.address = some a → a.isEmpty = false → findByAddress a = none →
      scan mfgId findByAddress advertised st = (st, .error .deviceNotFound)) ∧
    (∀ d, (scan mfgId findByAddress advertised st).2 = .ok d →
      (scan mfgId findByAddress advertised st).1
        = { device := some d, address := some d.address }) := by
  have hfilter : (∀ d ∈ advertised, mfgId ∉ d.mfgKeys) →
      findDeviceByFilter (scanFilterPred mfgId) advertised = none := by
    intro hnone
    rw [findDeviceByFilter, List.find?_eq_none]
    intro d hd
    simpa [scanFilterPred] using hnone d hd
  refine ⟨?_, ?_, ?_⟩
  · intro ha hnone
    simp [scan, scanDevice, ha, hfilter hnone]
  · intro a ha hne hfa
    simp [scan, scanDevice, ha, hne, hfa]
  · intro d hd
    unfold scan at hd ⊢
    cases hsd : scanDevice mfgId findByAddress advertised st with
    | none =>
      rw [hsd] at hd
      simp at hd
    | some d2 =>
      rw [hsd] at hd
      have he : d2 = d := by simpa using hd
      subst he
      rfl

/-- A device advertising manufacturer identifiers 5 and 6. -/
def devA : BLEDeviceM := { address := "11:22", mfgKeys := [5, 6] }

/-- Concrete instances of `scan_failure_preserves_identity`: a filter scan
that matches nothing and an address scan that finds nothing both leave the
identity untouched; a successful filter scan overwrites it. -/
theorem scan_failure_witness :
    scan 1024 (fun _ => none) [devA] { device := some devA, address := none }
      = ({ device := some devA, address := none }, .error .deviceNotFound) ∧
    scan 1024 (fun _ => none) [devA] { device := none, address := some "aa" }
      = ({ device := none, address := some "aa" }, .error .deviceNotFound) ∧
    (scan 5 (fun _ => none) [devA] { device := none, address := none }).1
      = { device := some devA, address := some devA.address } :=
  ⟨(scan_failure_preserves_identity 1024 (fun _ => none) [devA]
      { device := some devA, address := none }).1 rfl (by decide),
   (scan_failure_preserves_identity 1024 (fun _ => none) [devA]
      { device := none, address := some "aa" }).2.1 "aa" rfl (by decide) rfl,
   (scan_failure_preserves_identity 5 (fun _ => none) [devA]
      { device := none, address := none }).2.2 devA rfl⟩

/-! ## Claim C10 — `set_time` ignores its argument on the wire -/

/-- Claim C10: for every supplied `new_time`, the transmitted command is
`ST` + the current wall clock formatted `%Y%m%d%H%M%S` + `U` — the argument
never reaches the wire — while the cached snapshot's time field (and nothing
else) is set to `new_time`; so whenever the argument differs from the clock,
the cached time and the transmitted time disagree. -/
theorem set_time_ignores_new_time (now1 now2 nt : CivilTime)
    (st : DeviceStatus) :
    (setTime now1 now2 (some nt) st).2 = "ST" ++ fmtYmdHms now2 ++ "U" ∧
    (setTime now1 now2 (some nt) st).1 = { st with time := .civil nt } ∧
    (nt ≠ now2 → (setTime now1 now2 (some nt) st).1.time ≠ .civil now2) := by
  refine ⟨rfl, rfl, fun hne hcon => ?_⟩
  exact hne (PyDateTime.civil.inj hcon)

/-- A sample wall-clock instant. -/
def t1 : CivilTime :=
  { year := 2024, month := 1, day := 2, hour := 3, minute := 4, second := 5 }

/-- A different sample wall-clock instant. -/
def t2 : CivilTime :=
  { year := 2025, month := 6, day := 7, hour := 8, minute := 9, second := 10 }

/-- Concrete instance of `set_time_ignores_new_time`: asking for `t1` while
the clock reads `t2` transmits `t2` and caches `t1`. -/
theorem set_time_ignores_new_time_witness :
    (setTime t1 t2 (some t1) st0).2 = "ST" ++ fmtYmdHms t2 ++ "U" ∧
    (setTime t1 t2 (some t1) st0).1.time ≠ .civil t2 :=
  ⟨(set_time_ignores_new_time t1 t2 t1 st0).1,
   (set_time_ignores_new_time t1 t2 t1 st0).2.2 (by decide)⟩

end HatchRest
